import Mathlib

/-!
# Verification of the Diagnowise triage-to-appointment scheduling pipeline

Shallow embedding of the scheduling / matching / pipeline logic of the
Diagnowise repository:

* `src/appointment/email_crew.py` — provider registry, specialty matching and
  the `schedule_optimal_appointment` slot allocator of the EmailJS pipeline;
* `src/appointment/crew.py` — the crew pipeline's `determine_specialty`,
  `generate_appointment_details` and its urgency extraction from the clinical
  assessment text;
* `src/Health-Planner/symptom checker/tools.py` — the Neo4j knowledge-graph
  client (`get_diseases_from_neo4j`, `get_all_symptoms_from_neo4j`);
* `src/appointment/email_main/emailjs_main.py` — the FastAPI submission
  endpoint's input model and its (absence of) validation;
* `src/symptom agent/crew.py` — the CLI symptom agent's vocabulary check.

Modelling conventions:

* Python strings are Lean `String`s (in this toolchain a `String` is a packed
  `List Char`); `str.lower` / `str.upper` / `str.strip` / `pat in s` /
  `str.split(',')` are translated character-by-character below.
* `datetime` values are modelled by `PyInstant`: a calendar day number plus
  the seconds elapsed since midnight (valid clock readings have `sec < 86400`).
  `timedelta(days = k)` is addition on the day field; `strftime('%Y-%m-%d')`
  renders exactly the day, and `strftime('%Y%m%d_%H%M%S')` renders exactly
  the `(day, sec)` pair, both injectively, so dates appear as day numbers and
  the second-resolution timestamp appears as the `PyInstant` itself.
* An optional `preferred_date` string is modelled as `Option Nat` (the parsed
  day); the empty string, which Python treats as falsy, is `none`.
* Fallible Python code (list indexing, dict lookup) returns `Except PyErr`;
  an uncaught Python exception is an `Except.error` value.
* External I/O (the Neo4j transport, the LLM calls) appears as an explicit
  argument carrying the outcome of the external call.
-/

namespace Diagnowise

/-! ## Python string primitives -/

/-- Python's substring test `pat in s`, over character lists
(`"" in s` is true, as in Python). -/
def strContains (pat : List Char) : List Char → Bool
  | [] => pat.isEmpty
  | c :: rest => pat.isPrefixOf (c :: rest) || strContains pat rest

/-- Python's `pat in s` on strings. -/
def pyIn (pat s : String) : Bool := strContains pat.data s.data

/-- Python's `str.lower()` (ASCII case folding, which covers every string
occurring in this repository). -/
def pyLower (s : String) : String := ⟨s.data.map Char.toLower⟩

/-- Python's `str.upper()`. -/
def pyUpper (s : String) : String := ⟨s.data.map Char.toUpper⟩

/-- Strip leading and trailing whitespace from a character list. -/
def stripChars (l : List Char) : List Char :=
  ((l.dropWhile Char.isWhitespace).reverse.dropWhile Char.isWhitespace).reverse

/-- Python's `str.strip()`. -/
def pyStrip (s : String) : String := ⟨stripChars s.data⟩

/-- The symptom normalisation applied by the knowledge-graph client:
`s.lower().strip()`. -/
def pyNormalize (s : String) : String := pyStrip (pyLower s)

/-- Python's `str.split(',')`, over character lists (`"".split(',') = [""]`). -/
def splitOnComma : List Char → List (List Char)
  | [] => [[]]
  | c :: rest =>
    if c = ',' then [] :: splitOnComma rest
    else (splitOnComma rest).modifyHead (c :: ·)

/-- Strip trailing elements satisfying `p`. -/
def dropRightWhile {α : Type} (p : α → Bool) (l : List α) : List α :=
  (l.reverse.dropWhile p).reverse

/-! ## Dates, errors, appointment ids -/

/-- A Python `datetime`: calendar day number plus seconds since midnight.
Valid clock readings satisfy `sec < 86400`. `timedelta(days = k)` adds to
`day`; `strftime('%Y-%m-%d')` renders `day` injectively. -/
structure PyInstant where
  day : Nat
  sec : Nat
deriving DecidableEq

/-- Python's `<=` on `datetime` values (lexicographic). -/
def instantLe (a b : PyInstant) : Bool :=
  a.day < b.day || (a.day == b.day && a.sec ≤ b.sec)

/-- Uncaught Python exceptions of the embedded code. -/
inductive PyErr where
  | indexError
  | keyError
deriving DecidableEq

deriving instance DecidableEq for Except

/-- The appointment id `f"APPT_{datetime.now().strftime('%Y%m%d_%H%M%S')}"`:
the literal tag together with the clock reading it renders.
`%Y%m%d_%H%M%S` is injective per clock second, so two rendered ids are equal
exactly when the tag and the clock reading are. -/
structure ApptId where
  tag : String
  stamp : PyInstant
deriving DecidableEq

/-! ## Provider registries

`HEALTHCARE_PROVIDERS` of `src/appointment/email_crew.py` (with
`available_slots`) and `HEALTHCARE_PROVIDERS` of `src/appointment/crew.py`
(without). Both are dict literals; Python dicts iterate in insertion order,
so each is a key-ordered association list. -/

structure EmailProvider where
  name : String
  email : String
  location : String
  specializations : List String
  available_slots : List String
deriving DecidableEq

def cardiologyProvider : EmailProvider :=
  { name := "Dr. Rajesh Sharma",
    email := "rajesh.sharma@cardiaccare.com",
    location := "Heart Care Center, Bengaluru",
    specializations :=
      ["chest pain", "heart disease", "palpitations", "cardiac", "hypertension"],
    available_slots := ["9:00 AM", "10:00 AM", "2:00 PM", "3:00 PM"] }

def neurologyProvider : EmailProvider :=
  { name := "Dr. Priya Nair",
    email := "priya.nair@neurocenter.com",
    location := "Brain & Spine Clinic, Bengaluru",
    specializations :=
      ["headache", "migraine", "dizziness", "neurological", "seizure"],
    available_slots := ["9:30 AM", "11:00 AM", "2:30 PM", "4:00 PM"] }

def internalMedicineProvider : EmailProvider :=
  { name := "Dr. Amit Singh",
    email := "amit.singh@generalhospital.com",
    location := "City General Hospital, Bengaluru",
    specializations :=
      ["fever", "fatigue", "general health", "internal", "diabetes"],
    available_slots := ["9:00 AM", "10:30 AM", "2:00 PM", "3:30 PM"] }

def orthopedicsProvider : EmailProvider :=
  { name := "Dr. Kavya Reddy",
    email := "kavya.reddy@boneclinic.com",
    location := "Bone & Joint Clinic, Bengaluru",
    specializations :=
      ["joint pain", "back pain", "fracture", "arthritis", "sports injury"],
    available_slots := ["10:00 AM", "11:30 AM", "3:00 PM", "4:30 PM"] }

def EMAIL_HEALTHCARE_PROVIDERS : List (String × EmailProvider) :=
  [("cardiology", cardiologyProvider),
   ("neurology", neurologyProvider),
   ("internal_medicine", internalMedicineProvider),
   ("orthopedics", orthopedicsProvider)]

structure CrewProvider where
  name : String
  email : String
  location : String
  specializations : List String
deriving DecidableEq

def crewInternalMedicine : CrewProvider :=
  { name := "Dr. Amit Singh",
    email := "amit.singh@generalhospital.com",
    location := "City General Hospital, Bengaluru",
    specializations := ["fever", "fatigue", "general health", "internal"] }

def crewCardiology : CrewProvider :=
  { name := "Dr. Rajesh Sharma",
    email := "rajesh.sharma@cardiaccare.com",
    location := "Heart Care Center, Bengaluru",
    specializations := ["chest pain", "heart disease", "palpitations", "cardiac"] }

def crewNeurology : CrewProvider :=
  { name := "Dr. Priya Nair",
    email := "priya.nair@neurocenter.com",
    location := "Brain & Spine Clinic, Bengaluru",
    specializations := ["headache", "migraine", "dizziness", "neurological"] }

def CREW_HEALTHCARE_PROVIDERS : List (String × CrewProvider) :=
  [("cardiology", crewCardiology),
   ("neurology", crewNeurology),
   ("internal_medicine", crewInternalMedicine)]

/-! ## Specialty routing -/

/-- `any(spec in symptom_text for spec in provider['specializations'])`. -/
def keywordHit (specializations : List String) (symptom_text : String) : Bool :=
  specializations.any (fun spec => pyIn spec symptom_text)

/-- The symptom text both routers match against:
`" ".join(symptoms).lower()`. -/
def symptomText (symptoms : List String) : String :=
  pyLower (String.intercalate " " symptoms)

/-- `HealthcareCrewAI.determine_specialty` (`src/appointment/crew.py`
lines 279-284): first provider in registry order with a specialization
keyword occurring in the symptom text, defaulting to `"internal_medicine"`. -/
def determine_specialty (symptoms : List String) : String :=
  match CREW_HEALTHCARE_PROVIDERS.find?
      (fun sp => keywordHit sp.2.specializations (symptomText symptoms)) with
  | some sp => sp.1
  | none => "internal_medicine"

/-- The `best_specialty` loop of `schedule_optimal_appointment`
(`src/appointment/email_crew.py` lines 107-114): starts at the default
`"internal_medicine"`, takes the first matching provider, `break`s. -/
def emailBestSpecialty (symptoms : List String) : String :=
  match EMAIL_HEALTHCARE_PROVIDERS.find?
      (fun sp => keywordHit sp.2.specializations (symptomText symptoms)) with
  | some sp => sp.1
  | none => "internal_medicine"

/-! ## The EmailJS slot allocator -/

/-- `time = preferred_time if preferred_time in provider['available_slots']
else provider['available_slots'][0]`; indexing an empty list raises
`IndexError`. -/
def selectTime (preferred_time : String) (slots : List String) :
    Except PyErr String :=
  if slots.contains preferred_time then .ok preferred_time
  else
    match slots with
    | [] => .error .indexError
    | s :: _ => .ok s

/-- Lines 118-143 of `src/appointment/email_crew.py`: the urgency dispatch
computing (date, time, location) from the resolved provider. The string
comparisons are Python `==`, hence case-sensitive. Returns the day of the
rendered target date. -/
def appointmentTiming (now : PyInstant) (urgency : String)
    (preferred_date : Option Nat) (preferred_time : String)
    (provider : EmailProvider) : Except PyErr (Nat × String × String) :=
  if urgency = "emergency" then
    .ok (now.day, "IMMEDIATE - Emergency Department", "Emergency Department")
  else if urgency = "urgent" then
    let target_day :=
      match preferred_date with
      | some p =>
        if instantLe ⟨p, 0⟩ ⟨now.day + 2, now.sec⟩ then p else now.day + 1
      | none => now.day + 1
    match selectTime preferred_time provider.available_slots with
    | .ok t => .ok (target_day, t, provider.location)
    | .error e => .error e
  else
    let target_day :=
      match preferred_date with
      | some p => p
      | none => now.day + 3
    match selectTime preferred_time provider.available_slots with
    | .ok t => .ok (target_day, t, provider.location)
    | .error e => .error e

/-- The record returned by `schedule_optimal_appointment`. Note that it has
no `status` field; `"confirmed"` is attached later by the FastAPI storage
layer (`emailjs_main.py`). -/
structure EmailApptResult where
  specialty : String
  doctor : String
  doctor_email : String
  date : Nat
  time : String
  location : String
  appointment_id : ApptId
  scheduling_rationale : String
  emailjs_ready : Bool
deriving DecidableEq

/-- `schedule_optimal_appointment` (`src/appointment/email_crew.py`
lines 104-155). It takes no record of existing appointments: its arguments
are exactly the tool's parameters plus the clock it reads. -/
def schedule_optimal_appointment (now : PyInstant) (symptoms : List String)
    (urgency : String) (preferred_date : Option Nat) (preferred_time : String) :
    Except PyErr EmailApptResult :=
  let best_specialty := emailBestSpecialty symptoms
  match EMAIL_HEALTHCARE_PROVIDERS.lookup best_specialty with
  | none => .error .keyError
  | some provider =>
    match appointmentTiming now urgency preferred_date preferred_time provider with
    | .error e => .error e
    | .ok (d, t, loc) =>
      .ok { specialty := best_specialty,
            doctor := provider.name,
            doctor_email := provider.email,
            date := d,
            time := t,
            location := loc,
            appointment_id := ⟨"APPT_", now⟩,
            scheduling_rationale :=
              "Selected " ++ best_specialty ++ " based on symptoms. Urgency: "
                ++ urgency ++ ".",
            emailjs_ready := true }

/-! ## The crew allocator -/

/-- Python's `str.title()` for the ASCII strings it is applied to here. -/
def pyTitleChars : Bool → List Char → List Char
  | _, [] => []
  | prevAlpha, c :: cs =>
    (if c.isAlpha then (if prevAlpha then c.toLower else c.toUpper) else c)
      :: pyTitleChars c.isAlpha cs

def pyTitle (s : String) : String := ⟨pyTitleChars false s.data⟩

/-- The record returned by `HealthcareCrewAI.generate_appointment_details`;
again there is no `status` field. -/
structure CrewApptResult where
  patient : String
  doctor : String
  specialty : String
  date : Nat
  time : String
  location : String
  doctor_email : String
  appointment_id : ApptId
deriving DecidableEq

/-- `HealthcareCrewAI.generate_appointment_details`
(`src/appointment/crew.py` lines 286-308). Unlike the EmailJS allocator it
lower-cases `urgency` before comparing. -/
def generate_appointment_details (now : PyInstant) (specialty : String)
    (patient_name : String) (urgency : String) : CrewApptResult :=
  let provider := (CREW_HEALTHCARE_PROVIDERS.lookup specialty).getD crewInternalMedicine
  let dt : Nat × String :=
    if pyLower urgency = "emergency" then
      (now.day, "IMMEDIATE - Emergency Department")
    else if pyLower urgency = "urgent" then
      (now.day + 1, "09:00 AM")
    else
      (now.day + 3, "10:00 AM")
  { patient := patient_name,
    doctor := provider.name,
    specialty := pyTitle (String.map (fun c => if c = '_' then ' ' else c) specialty),
    date := dt.1,
    time := dt.2,
    location := provider.location,
    doctor_email := provider.email,
    appointment_id := ⟨"APPT_", now⟩ }

/-! ## Urgency determination in the two pipelines -/

/-- Lines 437-442 of `src/appointment/crew.py` (`process_patient`):
`assessment_text = str(clinical_assessment).upper()`, then keyword tests
with `"EMERGENCY"` checked before `"URGENT"`, starting from `"routine"`. -/
def extract_urgency_from_assessment (clinical_assessment : String) : String :=
  let assessment_text := pyUpper clinical_assessment
  if pyIn "EMERGENCY" assessment_text then "emergency"
  else if pyIn "URGENT" assessment_text then "urgent"
  else "routine"

/-- The urgency `HealthcareCrewAI.process_patient` passes to
`generate_appointment_details`: it is computed from the clinical assessment
alone; a supplied `urgency_level` in `patient_data` is never read. -/
def crewPipelineUrgency (urgency_level : Option String)
    (clinical_assessment : String) : String :=
  extract_urgency_from_assessment clinical_assessment

/-- The urgency `EmailJSHealthcareCrewAI.process_patient_for_emailjs` passes
to `schedule_optimal_appointment` (line 439 of
`src/appointment/email_crew.py`):
`patient_data.get('urgency_level', 'routine')` — the assessment text is
never inspected. -/
def emailPipelineUrgency (urgency_level : Option String)
    (clinical_assessment : String) : String :=
  urgency_level.getD "routine"

/-! ## Knowledge-graph client (`src/Health-Planner/symptom checker/tools.py`)

The Cypher query of `get_diseases_from_neo4j` runs against the external
graph; we embed its semantics over a snapshot of the graph: a list of
disease nodes, each carrying the names of the symptom nodes it `HAS_SYMPTOM`
edges to. The transport outcome of `session.run` is an explicit
`Except`-valued argument; the Python `try`/`except` is the `match` on it. -/

structure DiseaseNode where
  name : String
  symptoms : List String
deriving DecidableEq

/-- One row of the query result: `{disease, matched_symptoms, match_count}`. -/
structure CondMatch where
  disease : String
  matched_symptoms : List String
  match_count : Nat
deriving DecidableEq

/-- `MATCH (d)-[:HAS_SYMPTOM]->(s) WHERE toLower(s.name) IN $symptom_list
WITH d, collect(s.name) as matched_symptoms, count(*) as match_count`:
a disease with no matching symptom row produces no result row. -/
def diseaseRow (symptom_list : List String) (d : DiseaseNode) :
    Option CondMatch :=
  let matched := d.symptoms.filter (fun s => symptom_list.contains (pyLower s))
  if matched = [] then none
  else some ⟨d.name, matched, matched.length⟩

/-- Insert into a list kept in descending `match_count` order
(`ORDER BY match_count DESC`; ties keep engine order, which the spec leaves
provider-defined). -/
def insertByCountDesc (x : CondMatch) : List CondMatch → List CondMatch
  | [] => [x]
  | y :: ys =>
    if y.match_count < x.match_count then x :: y :: ys
    else y :: insertByCountDesc x ys

def sortByCountDesc : List CondMatch → List CondMatch
  | [] => []
  | x :: xs => insertByCountDesc x (sortByCountDesc xs)

/-- The full Cypher statement: rows per disease, `ORDER BY match_count DESC`,
`LIMIT $top_n`. -/
def cypherDiseaseQuery (db : List DiseaseNode) (symptom_list : List String)
    (top_n : Nat) : List CondMatch :=
  (sortByCountDesc (db.filterMap (diseaseRow symptom_list))).take top_n

/-- `get_diseases_from_neo4j(user_symptoms, top_n)`: normalises the input
with `s.lower().strip()`, runs the query, and returns `[]` on any
transport/query failure (the `except` prints a warning and returns `[]`). -/
def get_diseases_from_neo4j (transport : Except String (List DiseaseNode))
    (user_symptoms : List String) (top_n : Nat) : List CondMatch :=
  match transport with
  | .error _ => []
  | .ok db => cypherDiseaseQuery db (user_symptoms.map pyNormalize) top_n

/-- `get_all_symptoms_from_neo4j()`: returns the rows of
`MATCH (s:Symptom) RETURN s.name ORDER BY s.name` as delivered by the store
(the ordering runs inside the external engine), and `[]` on any failure. -/
def get_all_symptoms_from_neo4j (transport : Except String (List String)) :
    List String :=
  match transport with
  | .error _ => []
  | .ok rows => rows

/-! ## FastAPI submission endpoint (`src/appointment/email_main/emailjs_main.py`) -/

/-- The pydantic input model `EmailJSPatientData` (lines 44-53). Every field
is a plain typed field; `urgency_level` is `Optional[str] = "routine"` — any
string passes validation. -/
structure EmailJSPatientData where
  name : String
  email : String
  phone : Option String := none
  symptoms : List String
  medical_history : Option String := some "No significant medical history reported."
  appointment_type : Option String := some "consultation"
  preferred_date : Option String := none
  preferred_time : Option String := none
  urgency_level : Option String := some "routine"
deriving DecidableEq

/-- The `patient_dict` built by `/process-patient-enhanced` and stored in
`patients_db`. -/
structure PatientDict where
  name : String
  email : String
  phone : String
  symptoms : List String
  medical_history : Option String
  preferred_date : Option String
  preferred_time : Option String
  urgency_level : Option String
deriving DecidableEq

/-- The `/process-patient-enhanced` handler: for every input that passes the
pydantic type check it stores the patient dict and schedules the background
pipeline run (`background_tasks.add_task`). The returned `Bool` is whether a
run was started — the handler contains no symptom-vocabulary or urgency
check, so it is `true` unconditionally. -/
def process_patient_enhanced (d : EmailJSPatientData) : PatientDict × Bool :=
  ({ name := d.name,
     email := d.email,
     phone := d.phone.getD "Not provided",
     symptoms := d.symptoms,
     medical_history := d.medical_history,
     preferred_date := d.preferred_date,
     preferred_time := d.preferred_time,
     urgency_level := d.urgency_level }, true)

/-! ## CLI symptom agent (`src/symptom agent/crew.py`) -/

/-- Outcome of `main()` up to the point where the CrewAI run would start:
either it returns early with the printed message, or it reaches
`crew.kickoff()` with the validated symptom list. -/
inductive CliOutcome where
  | noRun : String → CliOutcome
  | run : List String → CliOutcome
deriving DecidableEq

/-- `[s.strip() for s in user_in.split(',') if s.strip()]` applied to the
stripped raw input. -/
def cliParsedSymptoms (raw : String) : List String :=
  ((splitOnComma (pyStrip raw).data).map (fun l => pyStrip ⟨l⟩)).filter
    (fun s => s ≠ "")

/-- The vocabulary filter of `main()`: a user symptom is valid when its
lower-casing occurs among the lower-cased database symptoms. -/
def cliValidSymptoms (all_symptoms : List String) (raw : String) : List String :=
  (cliParsedSymptoms raw).filter
    (fun s => (all_symptoms.map pyLower).contains (pyLower s))

/-- `main()` of `src/symptom agent/crew.py` (lines 11-62), given the
vocabulary returned by `get_all_symptoms_from_neo4j` and the raw user input:
aborts when the vocabulary is empty, when the stripped input is empty, or
when no entered symptom is in the vocabulary; otherwise proceeds to the
query and the CrewAI run with the valid subset (unknown symptoms are only
warned about). -/
def symptom_agent_main (all_symptoms : List String) (raw : String) :
    CliOutcome :=
  if all_symptoms = [] then
    .noRun "Error: Could not retrieve symptoms from database."
  else if pyStrip raw = "" then
    .noRun "No symptoms entered. Exiting."
  else if cliValidSymptoms all_symptoms raw = [] then
    .noRun "No valid symptoms found in database. Please check your input."
  else
    .run (cliValidSymptoms all_symptoms raw)

/-! ## Concrete sample values used to instantiate the theorems -/

/-- The record `schedule_optimal_appointment` returns for symptoms
`["chest pain"]`, routine urgency, no preferred date, preferred time
`"10:00 AM"`, at clock reading day 20000, second 36000. -/
def sampleCardiologyBooking : EmailApptResult :=
  { specialty := "cardiology",
    doctor := "Dr. Rajesh Sharma",
    doctor_email := "rajesh.sharma@cardiaccare.com",
    date := 20003,
    time := "10:00 AM",
    location := "Heart Care Center, Bengaluru",
    appointment_id := ⟨"APPT_", ⟨20000, 36000⟩⟩,
    scheduling_rationale :=
      "Selected cardiology based on symptoms. Urgency: routine.",
    emailjs_ready := true }

/-- A submission whose symptoms are outside any vocabulary and whose urgency
is not one of routine/urgent/emergency. -/
def bogusSubmission : EmailJSPatientData :=
  { name := "Eve",
    email := "eve@example.com",
    phone := none,
    symptoms := ["notarealsymptom"],
    medical_history := none,
    appointment_type := none,
    preferred_date := none,
    preferred_time := none,
    urgency_level := some "super-urgent-banana" }

/-- A one-disease graph snapshot. -/
def sampleGraph : List DiseaseNode :=
  [{ name := "influenza", symptoms := ["fever", "cough"] }]

/-! ## Character-level lemmas about the case-folding primitives -/

theorem char_toNat_ofNat {n : Nat} (h : n.isValidChar) :
    (Char.ofNat n).toNat = n := by
  simp [Char.ofNat, dif_pos h, Char.ofNatAux, Char.toNat, UInt32.toNat]

theorem char_eq_iff_toNat {a b : Char} : a = b ↔ a.toNat = b.toNat := by
  constructor
  · rintro rfl; rfl
  · intro h
    exact Char.ext (UInt32.ext h)

theorem char_toLower_of_upper {c : Char} (h : c.toNat ≥ 65 ∧ c.toNat ≤ 90) :
    c.toLower.toNat = c.toNat + 32 := by
  have hv : (c.toNat + 32).isValidChar := Or.inl (by omega)
  simp only [Char.toLower, if_pos h]
  exact char_toNat_ofNat hv

theorem char_toLower_of_not_upper {c : Char} (h : ¬ (c.toNat ≥ 65 ∧ c.toNat ≤ 90)) :
    c.toLower = c := by
  simp only [Char.toLower, if_neg h]

theorem char_toLower_toLower (c : Char) : c.toLower.toLower = c.toLower := by
  by_cases h : c.toNat ≥ 65 ∧ c.toNat ≤ 90
  · have hl := char_toLower_of_upper h
    exact char_toLower_of_not_upper (by omega)
  · rw [char_toLower_of_not_upper h, char_toLower_of_not_upper h]

theorem char_toUpper_toLower (c : Char) : c.toLower.toUpper = c.toUpper := by
  by_cases h : c.toNat ≥ 65 ∧ c.toNat ≤ 90
  · have hl := char_toLower_of_upper h
    have hvl : c.toLower.toNat ≥ 97 ∧ c.toLower.toNat ≤ 122 := by omega
    have hvc : ¬ (c.toNat ≥ 97 ∧ c.toNat ≤ 122) := by omega
    simp only [Char.toUpper, if_pos hvl, if_neg hvc]
    rw [char_eq_iff_toNat]
    have hv : (c.toLower.toNat - 32).isValidChar := Or.inl (by omega)
    rw [char_toNat_ofNat hv]
    omega
  · rw [char_toLower_of_not_upper h]

theorem char_isWhitespace_iff (c : Char) :
    c.isWhitespace = true ↔
      c.toNat = 32 ∨ c.toNat = 9 ∨ c.toNat = 13 ∨ c.toNat = 10 := by
  have h32 : (' ' : Char).toNat = 32 := rfl
  have h9 : ('\t' : Char).toNat = 9 := rfl
  have h13 : ('\r' : Char).toNat = 13 := rfl
  have h10 : ('\n' : Char).toNat = 10 := rfl
  simp only [Char.isWhitespace, Bool.or_eq_true, decide_eq_true_eq,
    char_eq_iff_toNat, h32, h9, h13, h10]
  tauto

theorem char_isWhitespace_toLower (c : Char) :
    c.toLower.isWhitespace = c.isWhitespace := by
  by_cases h : c.toNat ≥ 65 ∧ c.toNat ≤ 90
  · have hl := char_toLower_of_upper h
    have e1 : c.toLower.isWhitespace = false := by
      cases hb : c.toLower.isWhitespace with
      | false => rfl
      | true =>
        rcases (char_isWhitespace_iff _).mp hb with h1 | h1 | h1 | h1 <;> omega
    have e2 : c.isWhitespace = false := by
      cases hb : c.isWhitespace with
      | false => rfl
      | true =>
        rcases (char_isWhitespace_iff _).mp hb with h1 | h1 | h1 | h1 <;> omega
    rw [e1, e2]
  · rw [char_toLower_of_not_upper h]

/-! ## Idempotence of the `lower`/`strip` normalisation -/

theorem dropWhile_idem {α : Type} (p : α → Bool) (l : List α) :
    (l.dropWhile p).dropWhile p = l.dropWhile p := by
  induction l with
  | nil => rfl
  | cons a t ih =>
    by_cases h : p a
    · simp [List.dropWhile_cons, h, ih]
    · simp [List.dropWhile_cons, h]

theorem dropWhile_head_false {α : Type} (p : α → Bool) (l : List α) :
    l.dropWhile p = [] ∨ ∃ a t, l.dropWhile p = a :: t ∧ p a = false := by
  induction l with
  | nil => exact Or.inl rfl
  | cons a t ih =>
    by_cases h : p a
    · simpa [List.dropWhile_cons, h] using ih
    · exact Or.inr ⟨a, t, by simp [List.dropWhile_cons, h],
        Bool.eq_false_iff.mpr h⟩

theorem dropRightWhile_isPrefix {α : Type} (p : α → Bool) (l : List α) :
    dropRightWhile p l <+: l := by
  obtain ⟨t, ht⟩ := List.dropWhile_suffix (l := l.reverse) p
  refine ⟨t.reverse, ?_⟩
  have hl : l = (t ++ l.reverse.dropWhile p).reverse := by
    rw [ht, List.reverse_reverse]
  conv_rhs => rw [hl]
  rw [List.reverse_append]
  rfl

theorem dropRightWhile_idem {α : Type} (p : α → Bool) (l : List α) :
    dropRightWhile p (dropRightWhile p l) = dropRightWhile p l := by
  unfold dropRightWhile
  rw [List.reverse_reverse, dropWhile_idem]

theorem dropWhile_dropRightWhile {α : Type} (p : α → Bool) (l : List α) :
    (dropRightWhile p (l.dropWhile p)).dropWhile p
      = dropRightWhile p (l.dropWhile p) := by
  rcases dropWhile_head_false p l with hnil | ⟨a, t, hat, hpa⟩
  · rw [hnil]; rfl
  · rw [hat]
    rcases heq : dropRightWhile p (a :: t) with _ | ⟨b, s⟩
    · rfl
    · have hpre : dropRightWhile p (a :: t) <+: a :: t := dropRightWhile_isPrefix p _
      rw [heq] at hpre
      obtain ⟨u, hu⟩ := hpre
      have hb : b = a := by
        have := hu
        simp only [List.cons_append] at this
        exact (List.cons.injEq _ _ _ _ ▸ this).1
      subst hb
      simp [List.dropWhile_cons, hpa]

theorem stripChars_eq (l : List Char) :
    stripChars l = dropRightWhile Char.isWhitespace (l.dropWhile Char.isWhitespace) :=
  rfl

theorem stripChars_idem (l : List Char) :
    stripChars (stripChars l) = stripChars l := by
  rw [stripChars_eq (stripChars l), stripChars_eq l, dropWhile_dropRightWhile,
    dropRightWhile_idem]

theorem dropWhile_map_toLower (l : List Char) :
    (l.map Char.toLower).dropWhile Char.isWhitespace
      = (l.dropWhile Char.isWhitespace).map Char.toLower := by
  rw [List.dropWhile_map]
  have hp : (Char.isWhitespace ∘ Char.toLower) = Char.isWhitespace :=
    funext char_isWhitespace_toLower
  rw [hp]

theorem stripChars_map_toLower (l : List Char) :
    stripChars (l.map Char.toLower) = (stripChars l).map Char.toLower := by
  unfold stripChars
  rw [dropWhile_map_toLower, ← List.map_reverse, dropWhile_map_toLower,
    ← List.map_reverse]

theorem map_toLower_idem (l : List Char) :
    (l.map Char.toLower).map Char.toLower = l.map Char.toLower := by
  rw [List.map_map]
  apply List.map_congr_left
  intro c _
  exact char_toLower_toLower c

theorem pyNormalize_idem (s : String) :
    pyNormalize (pyNormalize s) = pyNormalize s := by
  unfold pyNormalize pyStrip pyLower
  simp only
  rw [← stripChars_map_toLower, map_toLower_idem, stripChars_idem]

theorem pyUpper_pyLower (s : String) : pyUpper (pyLower s) = pyUpper s := by
  unfold pyUpper pyLower
  simp only
  rw [List.map_map]
  congr 1
  apply List.map_congr_left
  intro c _
  exact char_toUpper_toLower c

/-- `datetime.strptime(date_str, '%Y-%m-%d')` yields midnight of the parsed
day, so a preferred date compares as `⟨p, 0⟩`. -/
theorem instantLe_midnight (p d s : Nat) :
    instantLe ⟨p, 0⟩ ⟨d, s⟩ = decide (p ≤ d) := by
  unfold instantLe
  by_cases h : p ≤ d
  · simp only [decide_eq_true h]
    rcases Nat.lt_or_ge p d with h1 | h1
    · simp [h1]
    · have he : p = d := Nat.le_antisymm h h1
      simp [he]
  · simp only [decide_eq_false h]
    have h1 : ¬ p < d := by omega
    have h2 : p ≠ d := by omega
    simp [h1, h2]

/-! ## Registry resolution -/

theorem emailBestSpecialty_cases (symptoms : List String) :
    emailBestSpecialty symptoms = "cardiology"
      ∨ emailBestSpecialty symptoms = "neurology"
      ∨ emailBestSpecialty symptoms = "internal_medicine"
      ∨ emailBestSpecialty symptoms = "orthopedics" := by
  unfold emailBestSpecialty
  cases h : EMAIL_HEALTHCARE_PROVIDERS.find?
      (fun sp => keywordHit sp.2.specializations (symptomText symptoms)) with
  | none => simp
  | some sp =>
    have hmem := List.mem_of_find?_eq_some h
    simp only [EMAIL_HEALTHCARE_PROVIDERS, List.mem_cons, List.not_mem_nil,
      or_false] at hmem
    rcases hmem with h1 | h1 | h1 | h1 <;> rw [h1] <;> simp

/-- Whatever the symptoms, the `HEALTHCARE_PROVIDERS[best_specialty]` lookup
of the EmailJS allocator resolves, and the resolved provider has a nonempty
slot list and a non-emergency location. -/
theorem email_provider_resolves (symptoms : List String) :
    ∃ prov : EmailProvider,
      EMAIL_HEALTHCARE_PROVIDERS.lookup (emailBestSpecialty symptoms) = some prov
        ∧ prov.available_slots ≠ []
        ∧ prov.location ≠ "Emergency Department" := by
  rcases emailBestSpecialty_cases symptoms with h | h | h | h <;> rw [h]
  · exact ⟨_, rfl, by decide, by decide⟩
  · exact ⟨_, rfl, by decide, by decide⟩
  · exact ⟨_, rfl, by decide, by decide⟩
  · exact ⟨_, rfl, by decide, by decide⟩

/-! ## Time-slot selection -/

theorem selectTime_nil (pt : String) : selectTime pt [] = .error .indexError := rfl

theorem selectTime_of_ne_nil {slots : List String} (pt : String)
    (h : slots ≠ []) :
    ∃ t, selectTime pt slots = .ok t ∧ t ∈ slots
      ∧ (pt ∈ slots → t = pt) ∧ (pt ∉ slots → t = slots.headI) := by
  unfold selectTime
  by_cases hc : slots.contains pt = true
  · have hm : pt ∈ slots := by
      rw [List.contains_iff_exists_mem_beq] at hc
      obtain ⟨a, ha, hb⟩ := hc
      rwa [show pt = a from by simpa using hb]
    refine ⟨pt, ?_, hm, fun _ => rfl, fun hn => absurd hm hn⟩
    rw [if_pos hc]
  · have hm : pt ∉ slots := by
      intro hmem
      apply hc
      rw [List.contains_iff_exists_mem_beq]
      exact ⟨pt, hmem, by simp⟩
    cases slots with
    | nil => exact absurd rfl h
    | cons s rest =>
      refine ⟨s, ?_, List.mem_cons_self _ _,
        fun hmem => absurd hmem hm, fun _ => rfl⟩
      rw [if_neg hc]

/-! ## The allocator's branch behaviour -/

theorem appointmentTiming_emergency (now : PyInstant) (pd : Option Nat)
    (pt : String) (prov : EmailProvider) :
    appointmentTiming now "emergency" pd pt prov
      = .ok (now.day, "IMMEDIATE - Emergency Department", "Emergency Department") :=
  rfl

theorem appointmentTiming_nonEmergency (now : PyInstant) {u : String}
    (hu1 : u ≠ "emergency") (pd : Option Nat) (pt : String)
    (prov : EmailProvider) (hs : prov.available_slots ≠ []) :
    ∃ t, t ∈ prov.available_slots
      ∧ (pt ∈ prov.available_slots → t = pt)
      ∧ (pt ∉ prov.available_slots → t = prov.available_slots.headI)
      ∧ appointmentTiming now u pd pt prov
          = .ok (if u = "urgent" then
                   match pd with
                   | some p => if p ≤ now.day + 2 then p else now.day + 1
                   | none => now.day + 1
                 else
                   match pd with
                   | some p => p
                   | none => now.day + 3,
                 t, prov.location) := by
  obtain ⟨t, hst, hmem, hpre, hnot⟩ := selectTime_of_ne_nil pt hs
  refine ⟨t, hmem, hpre, hnot, ?_⟩
  by_cases hu2 : u = "urgent"
  · subst hu2
    have hne : ("urgent" : String) ≠ "emergency" := by decide
    cases pd with
    | none => simp [appointmentTiming, hst, hne]
    | some p =>
      by_cases hp : p ≤ now.day + 2
      · simp [appointmentTiming, hst, hne, instantLe_midnight, hp]
      · simp [appointmentTiming, hst, hne, instantLe_midnight, hp]
  · cases pd with
    | none => simp [appointmentTiming, hst, hu1, hu2]
    | some p => simp [appointmentTiming, hst, hu1, hu2]

theorem appointmentTiming_empty_slots (now : PyInstant) {u : String}
    (hu1 : u ≠ "emergency") (pd : Option Nat) (pt : String)
    (prov : EmailProvider) (hs : prov.available_slots = []) :
    appointmentTiming now u pd pt prov = .error .indexError := by
  unfold appointmentTiming
  rw [if_neg hu1, hs, selectTime_nil]
  by_cases hu2 : u = "urgent"
  · rw [if_pos hu2]
  · rw [if_neg hu2]

/-- Unfolding `schedule_optimal_appointment` through the always-successful
provider lookup. -/
theorem schedule_unfold (now : PyInstant) (symptoms : List String)
    (urgency : String) (pd : Option Nat) (pt : String) :
    ∃ prov : EmailProvider,
      EMAIL_HEALTHCARE_PROVIDERS.lookup (emailBestSpecialty symptoms) = some prov
        ∧ prov.available_slots ≠ []
        ∧ prov.location ≠ "Emergency Department"
        ∧ schedule_optimal_appointment now symptoms urgency pd pt
            = (appointmentTiming now urgency pd pt prov).map
                (fun x =>
                  { specialty := emailBestSpecialty symptoms,
                    doctor := prov.name,
                    doctor_email := prov.email,
                    date := x.1,
                    time := x.2.1,
                    location := x.2.2,
                    appointment_id := ⟨"APPT_", now⟩,
                    scheduling_rationale :=
                      "Selected " ++ emailBestSpecialty symptoms
                        ++ " based on symptoms. Urgency: " ++ urgency ++ ".",
                    emailjs_ready := true }) := by
  obtain ⟨prov, hl, hs, hloc⟩ := email_provider_resolves symptoms
  refine ⟨prov, hl, hs, hloc, ?_⟩
  unfold schedule_optimal_appointment
  simp only [hl]
  cases appointmentTiming now urgency pd pt prov with
  | error e => rfl
  | ok x =>
    obtain ⟨d, t, loc⟩ := x
    rfl

/-! ## Properties of the embedded Cypher query -/

theorem mem_insertByCountDesc {x a : CondMatch} {l : List CondMatch} :
    a ∈ insertByCountDesc x l ↔ a = x ∨ a ∈ l := by
  induction l with
  | nil => simp [insertByCountDesc]
  | cons y ys ih =>
    unfold insertByCountDesc
    by_cases h : y.match_count < x.match_count
    · simp [h]
    · simp [h, ih]
      tauto

theorem sorted_insertByCountDesc {x : CondMatch} {l : List CondMatch}
    (hl : l.Pairwise (fun a b => b.match_count ≤ a.match_count)) :
    (insertByCountDesc x l).Pairwise
      (fun a b => b.match_count ≤ a.match_count) := by
  induction l with
  | nil => simp [insertByCountDesc]
  | cons y ys ih =>
    rcases List.pairwise_cons.mp hl with ⟨hy, hys⟩
    unfold insertByCountDesc
    by_cases h : y.match_count < x.match_count
    · rw [if_pos h]
      refine List.pairwise_cons.mpr ⟨?_, hl⟩
      intro b hb
      rcases List.mem_cons.mp hb with rfl | hb
      · omega
      · have := hy b hb
        omega
    · rw [if_neg h]
      refine List.pairwise_cons.mpr ⟨?_, ih hys⟩
      intro b hb
      rcases mem_insertByCountDesc.mp hb with rfl | hb
      · omega
      · exact hy b hb

theorem sorted_sortByCountDesc (l : List CondMatch) :
    (sortByCountDesc l).Pairwise (fun a b => b.match_count ≤ a.match_count) := by
  induction l with
  | nil => simp [sortByCountDesc]
  | cons x xs ih => exact sorted_insertByCountDesc ih

theorem mem_sortByCountDesc {a : CondMatch} {l : List CondMatch} :
    a ∈ sortByCountDesc l ↔ a ∈ l := by
  induction l with
  | nil => simp [sortByCountDesc]
  | cons x xs ih =>
    simp [sortByCountDesc, mem_insertByCountDesc, ih]

theorem diseaseRow_spec {sl : List String} {d : DiseaseNode} {e : CondMatch}
    (hd : d.symptoms.Nodup) (he : diseaseRow sl d = some e) :
    e.match_count = e.matched_symptoms.length ∧ e.matched_symptoms.Nodup := by
  simp only [diseaseRow] at he
  split at he
  · exact Option.noConfusion he
  · have he2 := Option.some.inj he
    rw [← he2]
    exact ⟨rfl, hd.filter _⟩

theorem appointmentTiming_urgent (now : PyInstant) (pd : Option Nat)
    (pt : String) (prov : EmailProvider) (hs : prov.available_slots ≠ []) :
    ∃ t, t ∈ prov.available_slots
      ∧ appointmentTiming now "urgent" pd pt prov
          = .ok (match pd with
                 | some p => if p ≤ now.day + 2 then p else now.day + 1
                 | none => now.day + 1,
                 t, prov.location) := by
  obtain ⟨t, hmem, _, _, htim⟩ :=
    appointmentTiming_nonEmergency now (u := "urgent") (by decide) pd pt prov hs
  refine ⟨t, hmem, ?_⟩
  rw [htim, if_pos rfl]

theorem appointmentTiming_routine_like (now : PyInstant) {u : String}
    (hu1 : u ≠ "emergency") (hu2 : u ≠ "urgent") (pd : Option Nat)
    (pt : String) (prov : EmailProvider) (hs : prov.available_slots ≠ []) :
    ∃ t, t ∈ prov.available_slots
      ∧ appointmentTiming now u pd pt prov
          = .ok (match pd with
                 | some p => p
                 | none => now.day + 3,
                 t, prov.location) := by
  obtain ⟨t, hmem, _, _, htim⟩ :=
    appointmentTiming_nonEmergency now hu1 pd pt prov hs
  refine ⟨t, hmem, ?_⟩
  rw [htim, if_neg hu2]

/-! ## Claims -/

/-- C1, counterexample. The claim says two allocate() calls for the same
specialty, date and preferred time return distinct (date, time) pairs.
`schedule_optimal_appointment` takes no record of existing appointments and
performs no conflict scan, so the two calls of the scenario — same symptoms
(hence same specialty), same urgency, same preferences, issued at the same
clock second — both return date 20003 with time "10:00 AM": the same pair,
not distinct ones. -/
theorem c1_same_slot_counterexample :
    (schedule_optimal_appointment ⟨20000, 36000⟩ ["chest pain"] "routine" none
        "10:00 AM").map (fun r => (r.date, r.time)) = .ok (20003, "10:00 AM")
    ∧ (schedule_optimal_appointment ⟨20000, 36000⟩ ["chest pain"] "routine" none
        "10:00 AM").map (fun r => (r.date, r.time)) = .ok (20003, "10:00 AM") := by
  constructor <;> decide

/-- C1, amended. `schedule_optimal_appointment` never scans existing
appointments (it has no access to them), so any two calls with the same
clock reading, symptoms, urgency and preferences return the SAME
(date, time) pair; nothing prevents two confirmed appointments for the same
provider from sharing a slot, and there is no next-slot search or 14-day
retry cap anywhere in the allocator. -/
theorem c1_identical_calls_same_slot (now : PyInstant) (symptoms : List String)
    (urgency : String) (pd : Option Nat) (pt : String)
    (r₁ r₂ : EmailApptResult)
    (h₁ : schedule_optimal_appointment now symptoms urgency pd pt = .ok r₁)
    (h₂ : schedule_optimal_appointment now symptoms urgency pd pt = .ok r₂) :
    r₁.date = r₂.date ∧ r₁.time = r₂.time := by
  rw [h₁] at h₂
  cases Except.ok.inj h₂
  exact ⟨rfl, rfl⟩

theorem c1_identical_calls_same_slot_witness :
    sampleCardiologyBooking.date = sampleCardiologyBooking.date
      ∧ sampleCardiologyBooking.time = sampleCardiologyBooking.time :=
  c1_identical_calls_same_slot ⟨20000, 36000⟩ ["chest pain"] "routine" none
    "10:00 AM" sampleCardiologyBooking sampleCardiologyBooking
    (by decide) (by decide)

/-- C2: the urgency → date mapping of `schedule_optimal_appointment`.
Emergency uses today's date, the sentinel time
`"IMMEDIATE - Emergency Department"` and the Emergency Department location,
whatever the preferences; urgent uses today+1 unless a preferred date at
most today+2 was given, in which case the preferred date; routine uses the
preferred date when given, else today+3. -/
theorem c2_urgency_date_mapping (now : PyInstant) (symptoms : List String)
    (pd : Option Nat) (pt : String) (p : Nat) (hsec : now.sec < 86400) :
    ((schedule_optimal_appointment now symptoms "emergency" pd pt).map
        (fun r => (r.date, r.time, r.location))
      = .ok (now.day, "IMMEDIATE - Emergency Department", "Emergency Department"))
    ∧ ((schedule_optimal_appointment now symptoms "urgent" (some p) pt).map
        (fun r => r.date)
      = .ok (if p ≤ now.day + 2 then p else now.day + 1))
    ∧ ((schedule_optimal_appointment now symptoms "urgent" none pt).map
        (fun r => r.date) = .ok (now.day + 1))
    ∧ ((schedule_optimal_appointment now symptoms "routine" (some p) pt).map
        (fun r => r.date) = .ok p)
    ∧ ((schedule_optimal_appointment now symptoms "routine" none pt).map
        (fun r => r.date) = .ok (now.day + 3)) := by
  refine ⟨?_, ?_, ?_, ?_, ?_⟩
  · obtain ⟨prov, _, _, _, hs⟩ := schedule_unfold now symptoms "emergency" pd pt
    rw [hs, appointmentTiming_emergency]
    rfl
  · obtain ⟨prov, _, hslots, _, hs⟩ :=
      schedule_unfold now symptoms "urgent" (some p) pt
    obtain ⟨t, _, htim⟩ := appointmentTiming_urgent now (some p) pt prov hslots
    rw [hs, htim]
    rfl
  · obtain ⟨prov, _, hslots, _, hs⟩ :=
      schedule_unfold now symptoms "urgent" none pt
    obtain ⟨t, _, htim⟩ := appointmentTiming_urgent now none pt prov hslots
    rw [hs, htim]
    rfl
  · obtain ⟨prov, _, hslots, _, hs⟩ :=
      schedule_unfold now symptoms "routine" (some p) pt
    obtain ⟨t, _, htim⟩ :=
      appointmentTiming_routine_like now (u := "routine") (by decide)
        (by decide) (some p) pt prov hslots
    rw [hs, htim]
    rfl
  · obtain ⟨prov, _, hslots, _, hs⟩ :=
      schedule_unfold now symptoms "routine" none pt
    obtain ⟨t, _, htim⟩ :=
      appointmentTiming_routine_like now (u := "routine") (by decide)
        (by decide) none pt prov hslots
    rw [hs, htim]
    rfl

theorem c2_urgency_date_mapping_witness :
    ((schedule_optimal_appointment ⟨20000, 3600⟩ ["fever"] "emergency" none "").map
        (fun r => (r.date, r.time, r.location))
      = .ok (20000, "IMMEDIATE - Emergency Department", "Emergency Department"))
    ∧ ((schedule_optimal_appointment ⟨20000, 3600⟩ ["fever"] "urgent"
        (some 20001) "").map (fun r => r.date) = .ok 20001)
    ∧ ((schedule_optimal_appointment ⟨20000, 3600⟩ ["fever"] "urgent" none "").map
        (fun r => r.date) = .ok 20001)
    ∧ ((schedule_optimal_appointment ⟨20000, 3600⟩ ["fever"] "routine"
        (some 20001) "").map (fun r => r.date) = .ok 20001)
    ∧ ((schedule_optimal_appointment ⟨20000, 3600⟩ ["fever"] "routine" none "").map
        (fun r => r.date) = .ok 20003) := by
  have h := c2_urgency_date_mapping ⟨20000, 3600⟩ ["fever"] none "" 20001 (by decide)
  simpa using h

/-- C3, counterexample. The claim says an explicitly supplied urgency_level
always wins over inference from the assessment text. In
`HealthcareCrewAI.process_patient` the urgency passed to the allocator is
computed from the clinical assessment alone — a supplied
`urgency_level = "emergency"` is never read, and an assessment without
urgency keywords yields `"routine"`. -/
theorem c3_explicit_urgency_ignored :
    crewPipelineUrgency (some "emergency")
      "Patient stable, follow up in two weeks." = "routine" := by
  decide

/-- C3, amended. The two pipelines implement different halves of the claimed
precedence rule. The crew pipeline always infers urgency from the assessment
text and ignores a supplied urgency_level; the EmailJS pipeline always uses
the supplied urgency_level (default "routine") and never inspects the text.
The inference itself is as claimed: case-insensitive (the text is
upper-cased first), checks "EMERGENCY" before "URGENT", defaults to
"routine"; in particular text containing "URGENT" but not "EMERGENCY"
infers "urgent". -/
theorem c3_urgency_inference_amended :
    (∀ u t, emailPipelineUrgency (some u) t = u)
    ∧ (∀ t, emailPipelineUrgency none t = "routine")
    ∧ (∀ u t, crewPipelineUrgency u t = extract_urgency_from_assessment t)
    ∧ (∀ t, pyIn "EMERGENCY" (pyUpper t) = true →
        extract_urgency_from_assessment t = "emergency")
    ∧ (∀ t, pyIn "EMERGENCY" (pyUpper t) = false →
        pyIn "URGENT" (pyUpper t) = true →
        extract_urgency_from_assessment t = "urgent")
    ∧ (∀ t, pyIn "EMERGENCY" (pyUpper t) = false →
        pyIn "URGENT" (pyUpper t) = false →
        extract_urgency_from_assessment t = "routine")
    ∧ (∀ t, extract_urgency_from_assessment (pyLower t)
        = extract_urgency_from_assessment t)
    ∧ extract_urgency_from_assessment "...this appears URGENT, monitor closely"
        = "urgent" := by
  refine ⟨fun u t => rfl, fun t => rfl, fun u t => rfl, ?_, ?_, ?_, ?_,
    by decide⟩
  · intro t h
    simp [extract_urgency_from_assessment, h]
  · intro t h1 h2
    simp [extract_urgency_from_assessment, h1, h2]
  · intro t h1 h2
    simp [extract_urgency_from_assessment, h1, h2]
  · intro t
    unfold extract_urgency_from_assessment
    rw [pyUpper_pyLower]

theorem c3_urgency_inference_amended_witness :
    extract_urgency_from_assessment "Assessment: URGENT follow-up required"
      = "urgent" :=
  c3_urgency_inference_amended.2.2.2.2.1
    "Assessment: URGENT follow-up required" (by decide) (by decide)

/-- C4: `get_diseases_from_neo4j` (the `rankConditions` contract) on a
successful transport returns at most `top_n` entries, sorted by descending
`match_count`; each entry's `match_count` equals the cardinality of its
`matched_symptoms` set (the graph links a disease to each symptom node once,
which is the no-duplicates hypothesis); and the result is invariant under
pre-normalising the input symptoms, because the client itself lower-cases
and strips each symptom before querying. -/
theorem c4_rank_conditions_spec (db : List DiseaseNode) (S : List String)
    (n : Nat) (hdb : ∀ d ∈ db, d.symptoms.Nodup) :
    (get_diseases_from_neo4j (.ok db) S n).length ≤ n
    ∧ (get_diseases_from_neo4j (.ok db) S n).Pairwise
        (fun a b => b.match_count ≤ a.match_count)
    ∧ (∀ e ∈ get_diseases_from_neo4j (.ok db) S n,
        e.match_count = e.matched_symptoms.toFinset.card)
    ∧ get_diseases_from_neo4j (.ok db) (S.map pyNormalize) n
        = get_diseases_from_neo4j (.ok db) S n := by
  refine ⟨?_, ?_, ?_, ?_⟩
  · exact List.length_take_le _ _
  · exact List.Pairwise.sublist (List.take_sublist _ _)
      (sorted_sortByCountDesc _)
  · intro e he
    have h1 : e ∈ sortByCountDesc
        (db.filterMap (diseaseRow (S.map pyNormalize))) :=
      (List.take_sublist _ _).subset he
    have h2 : e ∈ db.filterMap (diseaseRow (S.map pyNormalize)) :=
      mem_sortByCountDesc.mp h1
    obtain ⟨d, hd, hrow⟩ := List.mem_filterMap.mp h2
    obtain ⟨hc, hnd⟩ := diseaseRow_spec (hdb d hd) hrow
    rw [hc, List.toFinset_card_of_nodup hnd]
  · unfold get_diseases_from_neo4j
    rw [List.map_map]
    have hmap : S.map (pyNormalize ∘ pyNormalize) = S.map pyNormalize :=
      List.map_congr_left (fun s _ => pyNormalize_idem s)
    rw [hmap]

theorem c4_rank_conditions_spec_witness :
    (get_diseases_from_neo4j (.ok sampleGraph) ["Fever ", "headache"] 5).length ≤ 5
    ∧ (get_diseases_from_neo4j (.ok sampleGraph) ["Fever ", "headache"] 5).Pairwise
        (fun a b => b.match_count ≤ a.match_count)
    ∧ (∀ e ∈ get_diseases_from_neo4j (.ok sampleGraph) ["Fever ", "headache"] 5,
        e.match_count = e.matched_symptoms.toFinset.card)
    ∧ get_diseases_from_neo4j (.ok sampleGraph)
        (["Fever ", "headache"].map pyNormalize) 5
      = get_diseases_from_neo4j (.ok sampleGraph) ["Fever ", "headache"] 5 :=
  c4_rank_conditions_spec sampleGraph ["Fever ", "headache"] 5 (by decide)

/-- C5: on any transport/query failure both knowledge-graph client functions
return the empty sequence instead of raising — the `except` branch of each
swallows the error (printing a warning) and returns `[]`; the functions are
total, so no exception reaches the caller. -/
theorem c5_failure_returns_empty (msg : String) (S : List String) (n : Nat) :
    get_diseases_from_neo4j (.error msg) S n = []
      ∧ get_all_symptoms_from_neo4j (.error msg) = [] :=
  ⟨rfl, rfl⟩

/-- C6: specialty routing. The scenario `{"chest pain"} → "cardiology"`
holds for both routers; and `determine_specialty` implements exactly the
first-match-in-registry-order rule over its three-provider registry with
`"internal_medicine"` as default: cardiology wins when its keywords hit,
neurology when cardiology misses and its keywords hit, and in every other
case — internal-medicine hit or no hit at all — the result is
`"internal_medicine"`. -/
theorem c6_specialty_routing :
    determine_specialty ["chest pain"] = "cardiology"
    ∧ emailBestSpecialty ["chest pain"] = "cardiology"
    ∧ (∀ symptoms,
        keywordHit crewCardiology.specializations (symptomText symptoms) = true →
        determine_specialty symptoms = "cardiology")
    ∧ (∀ symptoms,
        keywordHit crewCardiology.specializations (symptomText symptoms) = false →
        keywordHit crewNeurology.specializations (symptomText symptoms) = true →
        determine_specialty symptoms = "neurology")
    ∧ (∀ symptoms,
        keywordHit crewCardiology.specializations (symptomText symptoms) = false →
        keywordHit crewNeurology.specializations (symptomText symptoms) = false →
        determine_specialty symptoms = "internal_medicine")
    ∧ (∀ symptoms,
        (∀ sp ∈ CREW_HEALTHCARE_PROVIDERS,
          keywordHit sp.2.specializations (symptomText symptoms) = false) →
        determine_specialty symptoms = "internal_medicine") := by
  have hreg : CREW_HEALTHCARE_PROVIDERS
      = ("cardiology", crewCardiology) :: ("neurology", crewNeurology)
        :: ("internal_medicine", crewInternalMedicine) :: [] := rfl
  refine ⟨by decide, by decide, ?_, ?_, ?_, ?_⟩
  · intro symptoms h
    unfold determine_specialty
    rw [hreg]
    simp [List.find?, h]
  · intro symptoms h1 h2
    unfold determine_specialty
    rw [hreg]
    simp [List.find?, h1, h2]
  · intro symptoms h1 h2
    unfold determine_specialty
    rw [hreg]
    by_cases h3 : keywordHit crewInternalMedicine.specializations
        (symptomText symptoms) = true
    · simp [List.find?, h1, h2, h3]
    · simp only [Bool.not_eq_true] at h3
      simp [List.find?, h1, h2, h3]
  · intro symptoms h
    have h1 := h ("cardiology", crewCardiology) (by rw [hreg]; simp)
    have h2 := h ("neurology", crewNeurology) (by rw [hreg]; simp)
    have h3 := h ("internal_medicine", crewInternalMedicine) (by rw [hreg]; simp)
    unfold determine_specialty
    rw [hreg]
    simp [List.find?, h1, h2, h3]

theorem c6_specialty_routing_witness :
    determine_specialty ["migraine"] = "neurology" :=
  c6_specialty_routing.2.2.2.1 ["migraine"] (by decide) (by decide)

/-- C7, counterexample. The claim says an empty `available_slots` is
surfaced as a scheduling failure rather than a crash. The allocator's
time-selection line indexes `available_slots[0]` with no guard: on a
provider record with an empty slot list (non-emergency urgency, preferred
time not in the list) it raises an uncaught `IndexError` — modelled as the
`indexError` outcome — and no scheduling-failure status exists anywhere in
the allocator; only the pipeline-level catch-all `except` would see the
exception. -/
theorem c7_empty_slots_crash :
    appointmentTiming ⟨20000, 0⟩ "routine" none ""
      { name := "Dr. X", email := "x@example.com", location := "Nowhere Clinic",
        specializations := [], available_slots := [] } = .error .indexError := by
  decide

/-- C7, amended. For non-emergency urgency: whenever the provider's
`available_slots` is nonempty (true of every provider in the shipped
registry), the chosen time is `preferred_time` if it occurs in
`available_slots` and the first slot otherwise — in either case an element
of `available_slots`; whenever `available_slots` is empty the allocator
raises an index error instead of returning a scheduling failure. For the
real registry, any successful non-emergency allocation's time lies in the
resolved provider's slot list. -/
theorem c7_time_selection_amended :
    (∀ (now : PyInstant) (u : String) (pd : Option Nat) (pt : String)
        (prov : EmailProvider), u ≠ "emergency" → prov.available_slots ≠ [] →
      ∃ d t, appointmentTiming now u pd pt prov = .ok (d, t, prov.location)
        ∧ t ∈ prov.available_slots
        ∧ (pt ∈ prov.available_slots → t = pt)
        ∧ (pt ∉ prov.available_slots → t = prov.available_slots.headI))
    ∧ (∀ (now : PyInstant) (u : String) (pd : Option Nat) (pt : String)
        (prov : EmailProvider), u ≠ "emergency" → prov.available_slots = [] →
      appointmentTiming now u pd pt prov = .error .indexError)
    ∧ (∀ (now : PyInstant) (symptoms : List String) (u : String)
        (pd : Option Nat) (pt : String) (r : EmailApptResult),
      u ≠ "emergency" →
      schedule_optimal_appointment now symptoms u pd pt = .ok r →
      ∃ prov, EMAIL_HEALTHCARE_PROVIDERS.lookup (emailBestSpecialty symptoms)
          = some prov ∧ r.time ∈ prov.available_slots) := by
  refine ⟨?_, ?_, ?_⟩
  · intro now u pd pt prov hu hs
    obtain ⟨t, hmem, hpre, hnot, htim⟩ :=
      appointmentTiming_nonEmergency now hu pd pt prov hs
    exact ⟨_, t, htim, hmem, hpre, hnot⟩
  · intro now u pd pt prov hu hs
    exact appointmentTiming_empty_slots now hu pd pt prov hs
  · intro now symptoms u pd pt r hu hr
    obtain ⟨prov, hl, hslots, _, hs⟩ := schedule_unfold now symptoms u pd pt
    refine ⟨prov, hl, ?_⟩
    rw [hs] at hr
    obtain ⟨t, hmem, _, _, htim⟩ :=
      appointmentTiming_nonEmergency now hu pd pt prov hslots
    rw [htim] at hr
    cases Except.ok.inj hr
    exact hmem

theorem c7_time_selection_amended_witness :
    ∃ d t, appointmentTiming ⟨20000, 0⟩ "routine" none "10:00 AM"
        cardiologyProvider = .ok (d, t, cardiologyProvider.location)
      ∧ t ∈ cardiologyProvider.available_slots
      ∧ ("10:00 AM" ∈ cardiologyProvider.available_slots → t = "10:00 AM")
      ∧ ("10:00 AM" ∉ cardiologyProvider.available_slots →
          t = cardiologyProvider.available_slots.headI) :=
  c7_time_selection_amended.1 ⟨20000, 0⟩ "routine" none "10:00 AM"
    cardiologyProvider (by decide) (by decide)

/-- C8, counterexample. The claim says every two distinct allocate calls
return different appointment_ids (timestamp plus a random/sequence suffix).
The id is `"APPT_" + strftime('%Y%m%d_%H%M%S')` — a second-resolution
timestamp with NO random or sequence suffix — so two genuinely different
calls (different symptoms, hence different results) issued in the same
clock second produce the SAME appointment_id. -/
theorem c8_duplicate_id_counterexample :
    (schedule_optimal_appointment ⟨20000, 36000⟩ ["headache"] "routine" none
        "").map (fun r => r.appointment_id)
      = (schedule_optimal_appointment ⟨20000, 36000⟩ ["fever"] "routine" none
        "").map (fun r => r.appointment_id)
    ∧ schedule_optimal_appointment ⟨20000, 36000⟩ ["headache"] "routine" none ""
      ≠ schedule_optimal_appointment ⟨20000, 36000⟩ ["fever"] "routine" none "" := by
  constructor <;> decide

/-- C8, amended. The appointment_id of both allocators is exactly the
`"APPT_"` tag plus the current clock reading and nothing else: it is a
function of the clock alone, so ids of two calls differ exactly when their
clock seconds differ, and calls within one second collide; the returned
records carry no `status` field — `"confirmed"` is attached only later by
the FastAPI storage layer. -/
theorem c8_id_is_clock_only :
    (∀ (now : PyInstant) (symptoms : List String) (u : String)
        (pd : Option Nat) (pt : String) (r : EmailApptResult),
      schedule_optimal_appointment now symptoms u pd pt = .ok r →
      r.appointment_id = ⟨"APPT_", now⟩)
    ∧ (∀ (now : PyInstant) (specialty patient u : String),
      (generate_appointment_details now specialty patient u).appointment_id
        = ⟨"APPT_", now⟩) := by
  constructor
  · intro now symptoms u pd pt r hr
    obtain ⟨prov, _, _, _, hs⟩ := schedule_unfold now symptoms u pd pt
    rw [hs] at hr
    cases htim : appointmentTiming now u pd pt prov with
    | error e =>
      rw [htim] at hr
      exact Except.noConfusion hr
    | ok x =>
      rw [htim] at hr
      obtain ⟨d, t, loc⟩ := x
      cases Except.ok.inj hr
      rfl
  · intro now specialty patient u
    rfl

theorem c8_id_is_clock_only_witness :
    sampleCardiologyBooking.appointment_id = ⟨"APPT_", ⟨20000, 36000⟩⟩ :=
  c8_id_is_clock_only.1 ⟨20000, 36000⟩ ["chest pain"] "routine" none "10:00 AM"
    sampleCardiologyBooking (by decide)

/-- C9, counterexample. The claim says unknown symptom vocabulary or a
malformed urgency value is rejected before a run starts. The
`/process-patient-enhanced` handler accepts `bogusSubmission` — symptoms
outside any vocabulary and urgency `"super-urgent-banana"` — stores the
urgency verbatim and starts the background pipeline run. -/
theorem c9_no_validation_counterexample :
    (process_patient_enhanced bogusSubmission).2 = true
    ∧ (process_patient_enhanced bogusSubmission).1.urgency_level
        = some "super-urgent-banana"
    ∧ (process_patient_enhanced bogusSubmission).1.symptoms
        = ["notarealsymptom"] := by
  refine ⟨rfl, rfl, rfl⟩

/-- C9, amended. The FastAPI endpoint performs no vocabulary or urgency
validation: every typed submission starts a run with urgency and symptoms
passed through verbatim. Only the CLI symptom agent checks the vocabulary,
and it does so by filtering: it aborts before any run only when NO entered
symptom is in the vocabulary; otherwise it warns about the unknown ones and
runs with the valid subset. -/
theorem c9_validation_amended :
    (∀ d : EmailJSPatientData, (process_patient_enhanced d).2 = true
      ∧ (process_patient_enhanced d).1.urgency_level = d.urgency_level
      ∧ (process_patient_enhanced d).1.symptoms = d.symptoms)
    ∧ (∀ (A : List String) (raw : String), A ≠ [] → pyStrip raw ≠ "" →
        cliValidSymptoms A raw = [] →
        symptom_agent_main A raw
          = .noRun "No valid symptoms found in database. Please check your input.")
    ∧ (∀ (A : List String) (raw : String), A ≠ [] →
        cliValidSymptoms A raw ≠ [] →
        symptom_agent_main A raw = .run (cliValidSymptoms A raw)) := by
  refine ⟨fun d => ⟨rfl, rfl, rfl⟩, ?_, ?_⟩
  · intro A raw hA hre hv
    unfold symptom_agent_main
    rw [if_neg hA, if_neg hre, if_pos hv]
  · intro A raw hA hv
    have hre : pyStrip raw ≠ "" := by
      intro he
      apply hv
      unfold cliValidSymptoms cliParsedSymptoms
      rw [he]
      rfl
    unfold symptom_agent_main
    rw [if_neg hA, if_neg hre, if_neg hv]

theorem c9_validation_amended_witness :
    symptom_agent_main ["cough"] "cough, zzz" = .run ["cough"] := by
  rw [c9_validation_amended.2.2 ["cough"] "cough, zzz" (by decide) (by decide)]
  decide

/-- C10: `schedule_optimal_appointment` compares the urgency string
case-sensitively: any value other than exactly `"emergency"` or `"urgent"`
(including `"EMERGENCY"`, `"Emergency"`, or arbitrary text) takes the
routine branch, with routine dates and the provider's normal location;
`generate_appointment_details` lower-cases the urgency first, so on
`"EMERGENCY"` it books today with the immediate-sentinel time. On the same
mixed-case input the two allocators therefore disagree. -/
theorem c10_case_sensitive_dispatch :
    (∀ (now : PyInstant) (symptoms : List String) (pt u : String) (p : Nat),
      u ≠ "emergency" → u ≠ "urgent" →
      ((schedule_optimal_appointment now symptoms u none pt).map
          (fun r => r.date) = .ok (now.day + 3))
      ∧ ((schedule_optimal_appointment now symptoms u (some p) pt).map
          (fun r => r.date) = .ok p)
      ∧ (∀ (pd : Option Nat) (r : EmailApptResult),
          schedule_optimal_appointment now symptoms u pd pt = .ok r →
          r.location ≠ "Emergency Department"))
    ∧ (∀ (now : PyInstant) (specialty patient : String),
        (generate_appointment_details now specialty patient "EMERGENCY").date
            = now.day
        ∧ (generate_appointment_details now specialty patient "EMERGENCY").time
            = "IMMEDIATE - Emergency Department")
    ∧ ((schedule_optimal_appointment ⟨20000, 0⟩ ["chest pain"] "EMERGENCY" none
        "").map (fun r => r.date) = .ok 20003)
    ∧ (generate_appointment_details ⟨20000, 0⟩ "cardiology" "Pat"
        "EMERGENCY").date = 20000 := by
  refine ⟨?_, ?_, by decide, by decide⟩
  · intro now symptoms pt u p hu1 hu2
    refine ⟨?_, ?_, ?_⟩
    · obtain ⟨prov, _, hslots, _, hs⟩ := schedule_unfold now symptoms u none pt
      obtain ⟨t, _, htim⟩ :=
        appointmentTiming_routine_like now hu1 hu2 none pt prov hslots
      rw [hs, htim]
      rfl
    · obtain ⟨prov, _, hslots, _, hs⟩ :=
        schedule_unfold now symptoms u (some p) pt
      obtain ⟨t, _, htim⟩ :=
        appointmentTiming_routine_like now hu1 hu2 (some p) pt prov hslots
      rw [hs, htim]
      rfl
    · intro pd r hr
      obtain ⟨prov, _, hslots, hloc, hs⟩ := schedule_unfold now symptoms u pd pt
      rw [hs] at hr
      obtain ⟨t, _, htim⟩ :=
        appointmentTiming_routine_like now hu1 hu2 pd pt prov hslots
      rw [htim] at hr
      cases Except.ok.inj hr
      exact hloc
  · intro now specialty patient
    constructor <;> rfl

theorem c10_case_sensitive_dispatch_witness :
    ((schedule_optimal_appointment ⟨20000, 0⟩ ["chest pain"] "Emergency" none
        "").map (fun r => r.date) = .ok 20003)
    ∧ ((schedule_optimal_appointment ⟨20000, 0⟩ ["chest pain"] "Emergency"
        (some 20010) "").map (fun r => r.date) = .ok 20010) := by
  have h := c10_case_sensitive_dispatch.1 ⟨20000, 0⟩ ["chest pain"] ""
    "Emergency" 20010 (by decide) (by decide)
  exact ⟨h.1, h.2.1⟩
